import Mathlib

/-!
Verification of the retry-with-backoff delivery core of the loki-logger
repository (Go), via a shallow embedding in Lean 4.

Source files embedded here:
  - pkg/client/retry/retry.go : ExponentialBackoff (Next, Clone), the retrying
    Client (NewRetryClient, WithBackoff, Push, PushWithHandle).
  - pkg/client/client.go : the error taxonomy (PushStatusError and its Is
    method, errors.Is classification).
  - pkg/client/entry.go : Entry and AsPushRequest / Encode.

Modelling conventions:
  - Go time.Duration is int64 nanoseconds; we use Int.
  - Go float64 arithmetic in the backoff appears only as
    time.Duration(float64(Delay) * Factor).  We model float64 values by exact
    rationals and the conversion back to time.Duration by truncation toward
    zero, matching the Go conversion.  For every value reached in the claims
    (factor 2.0, delays far below 2^53 ns) the float64 computation is exact,
    so the rational model agrees with the source bit for bit.
  - The outcome channel of PushWithHandle is a buffered (capacity 1) channel
    that the spawned goroutine touches at most once with a send and at most
    once with close; its observable effect is captured by the Outcome type.
  - Scheduler and environment nondeterminism (which branch of the select
    fires) is captured by an explicit oracle passed to the loop.
-/

/-- Go time.Duration: int64 nanoseconds. -/
abbrev Duration := Int

/-- DefaultInitialDelay from retry.go: 100 * time.Millisecond. -/
def DefaultInitialDelay : Duration := 100 * 1000000

/-- DefaultFactor from retry.go: 2.0 (modelled as an exact rational). -/
def DefaultFactor : ℚ := 2

/-- Go computes time.Duration(float64(d) * f): a float64 multiply followed by
a conversion to int64 that truncates toward zero.  With f the exact rational
value of the float64 factor, the mathematical product is d * f.num / f.den,
and Int.tdiv truncates toward zero, so this models the conversion exactly
whenever the float64 multiply is itself exact (true for every value the
claims reach). -/
def mulFactorTrunc (d : Duration) (f : ℚ) : Duration := Int.tdiv (d * f.num) f.den

/-- ExponentialBackoff from retry.go: configurable starting delay, factor and
maximum delay; Delay doubles as the mutable current-delay state. -/
structure ExponentialBackoff where
  Delay : Duration
  Factor : ℚ
  Max : Duration
deriving DecidableEq, Repr

/-- ExponentialBackoff.Next from retry.go.  The Go method returns a channel:
a closed channel (receive gives ok = false, the stop sentinel) when
Max is nonzero and the current delay exceeds it, otherwise a timer channel
delivering after the captured delay.  We return the pair of the receive
outcome of that channel (none = stop sentinel, some d = a value after
waiting d) and the mutated receiver. -/
def ExponentialBackoff.Next (b : ExponentialBackoff) :
    Option Duration × ExponentialBackoff :=
  if b.Max ≠ 0 ∧ b.Max < b.Delay then
    (none, b)
  else
    let delay0 := if b.Delay = 0 then DefaultInitialDelay else b.Delay
    let factor := if b.Factor = 0 then DefaultFactor else b.Factor
    (some delay0,
      { Delay := mulFactorTrunc delay0 factor, Factor := factor,
        Max := b.Max })

/-- ExponentialBackoff.Clone from retry.go: a fresh struct with the same
Delay, Factor and Max fields (configuration and current-delay progress). -/
def ExponentialBackoff.Clone (b : ExponentialBackoff) : ExponentialBackoff :=
  { Delay := b.Delay, Factor := b.Factor, Max := b.Max }

/-- The state of a backoff after n successive calls to Next. -/
def ExponentialBackoff.advance (b : ExponentialBackoff) : Nat → ExponentialBackoff
  | 0 => b
  | n + 1 => (b.Next.2).advance n

/-- The list of receive outcomes of n successive calls to Next. -/
def ExponentialBackoff.nextOutputs : ExponentialBackoff → Nat → List (Option Duration)
  | _, 0 => []
  | b, n + 1 => b.Next.1 :: (b.Next.2).nextOutputs n

/-- An exhausted backoff (nonzero Max, current delay above it) returns the
stop sentinel and leaves the state untouched. -/
lemma ExponentialBackoff.next_of_exhausted (b : ExponentialBackoff)
    (hm : b.Max ≠ 0) (hd : b.Max < b.Delay) : b.Next = (none, b) := by
  simp [ExponentialBackoff.Next, hm, hd]

/-- An exhausted backoff stays in the same state under any number of calls. -/
lemma ExponentialBackoff.advance_of_exhausted (b : ExponentialBackoff)
    (hm : b.Max ≠ 0) (hd : b.Max < b.Delay) : ∀ n, b.advance n = b := by
  intro n
  induction n with
  | zero => rfl
  | succ n ih =>
    show (b.Next.2).advance n = b
    rw [b.next_of_exhausted hm hd]
    exact ih

/-- C6: a zero-valued exponential backoff with a 1-second maximum yields the
delays 100ms, 200ms, 400ms, 800ms and then the stop sentinel; the defaults
(100ms initial delay, factor 2.0) are resolved lazily inside Next itself from
the zero-valued fields, as the zero starting state here shows. -/
theorem zero_backoff_with_one_second_max_sequence :
    ExponentialBackoff.nextOutputs ⟨0, 0, 1000000000⟩ 5 =
      [some 100000000, some 200000000, some 400000000, some 800000000, none] := by
  decide

/-- C7: once a backoff with nonzero Max has its current delay above Max, Next
returns the stop sentinel with the state unmutated, and every later Next call
(the state after any n further calls) still returns the stop sentinel:
exhaustion is a stable terminal state. -/
theorem exhausted_backoff_stop_and_stable (b : ExponentialBackoff)
    (hm : b.Max ≠ 0) (hd : b.Max < b.Delay) :
    b.Next = (none, b) ∧ ∀ n, (b.advance n).Next.1 = none := by
  refine ⟨b.next_of_exhausted hm hd, fun n => ?_⟩
  rw [b.advance_of_exhausted hm hd n, b.next_of_exhausted hm hd]

/-- Witness for C7 at the concrete backoff with Delay 2ms, Factor 2, Max 1ms. -/
theorem exhausted_backoff_stop_and_stable_witness :
    ((⟨2000000, 2, 1000000⟩ : ExponentialBackoff).Max ≠ 0 ∧
        (⟨2000000, 2, 1000000⟩ : ExponentialBackoff).Max <
          (⟨2000000, 2, 1000000⟩ : ExponentialBackoff).Delay) ∧
      ((⟨2000000, 2, 1000000⟩ : ExponentialBackoff).Next =
          (none, ⟨2000000, 2, 1000000⟩) ∧
        ∀ n, ((⟨2000000, 2, 1000000⟩ : ExponentialBackoff).advance n).Next.1 = none) :=
  ⟨⟨by decide, by decide⟩,
    exhausted_backoff_stop_and_stable ⟨2000000, 2, 1000000⟩ (by decide) (by decide)⟩

/-- Go allocates a fresh struct in Clone, so a delivery loop that advances the
clone mutates only the new cell: the pair (original cell, clone cell after k
Next calls on the clone). -/
def cloneThenAdvanceClone (b : ExponentialBackoff) (k : Nat) :
    ExponentialBackoff × ExponentialBackoff := (b, b.Clone.advance k)

/-- Symmetric experiment: advance the original k times after cloning; the
clone cell keeps the value captured at clone time. -/
def cloneThenAdvanceOriginal (b : ExponentialBackoff) (k : Nat) :
    ExponentialBackoff × ExponentialBackoff := (b.advance k, b.Clone)

/-- C8: for any backoff, including one already advanced by n Next calls,
Clone has identical Delay (current-delay progress), Factor and Max; advancing
the clone k times leaves the original cell at its pre-clone value, and
advancing the original leaves the clone cell at the value captured at clone
time. -/
theorem clone_preserves_state_and_is_independent (b0 : ExponentialBackoff) (n k : Nat) :
    ((b0.advance n).Clone.Delay = (b0.advance n).Delay ∧
        (b0.advance n).Clone.Factor = (b0.advance n).Factor ∧
        (b0.advance n).Clone.Max = (b0.advance n).Max) ∧
      (cloneThenAdvanceClone (b0.advance n) k).1 = b0.advance n ∧
      (cloneThenAdvanceOriginal (b0.advance n) k).2 = (b0.advance n).Clone :=
  ⟨⟨rfl, rfl, rfl⟩, rfl, rfl⟩

/-- The Go error values that can reach the retry loop from the inner client:
pushStatus is client.PushStatusError (non-2xx response, with status code,
status text and response body bytes); joined is errors.Join of two non-nil
errors (client.go builds one when reading the error response body fails);
other covers every remaining error (encoding failure, request construction
failure, network failure, ...), identified by its message. -/
inductive GoError where
  | pushStatus (statusCode : Int) (status : String) (body : List UInt8)
  | joined (first second : GoError)
  | other (msg : String)
deriving DecidableEq, Repr

/-- errors.Is(err, target) with target = a fresh PushStatusError, as the loop
condition in PushWithHandle calls it.  errors.Is walks the wrap tree of err;
at a PushStatusError node it calls PushStatusError.Is(target), which returns
true since the target is non-nil and of PushStatusError type; a joined error
exposes both children through Unwrap; any other node fails and has no
children. -/
def errorsIsPushStatus : GoError → Bool
  | .pushStatus _ _ _ => true
  | .joined a b => errorsIsPushStatus a || errorsIsPushStatus b
  | .other _ => false

/-- The loop condition of PushWithHandle on the result of a push: a nil error
(none) never matches; otherwise classify with errors.Is as above. -/
def isTransient : Option GoError → Bool
  | none => false
  | some e => errorsIsPushStatus e

/-- What the goroutine of PushWithHandle did to the outcome channel (and, for
the two return paths, why it stopped).  The channel has capacity 1 and only
this goroutine touches it, so the four cases are exhaustive: sentThenClosed
is one send of the error followed by close; closedEmpty is close without a
send; cancelled (the ctx.Done select branch won) and exhausted (the backoff
channel was closed, ok = false) are the two bare returns that leave the
channel open and empty. -/
inductive Outcome where
  | sentThenClosed (e : GoError)
  | closedEmpty
  | cancelled
  | exhausted
deriving DecidableEq, Repr

/-- Whether the goroutine sent a value on the outcome channel. -/
def Outcome.channelWritten : Outcome → Bool
  | .sentThenClosed _ => true
  | _ => false

/-- Whether the goroutine closed the outcome channel (a reader unblocks only
if a value was sent or the channel was closed). -/
def Outcome.channelClosed : Outcome → Bool
  | .sentThenClosed _ => true
  | .closedEmpty => true
  | _ => false

/-- The code after the loop in PushWithHandle: send err if non-nil, close. -/
def finishOutcome : Option GoError → Outcome
  | some e => .sentThenClosed e
  | none => .closedEmpty

/-- The body of the goroutine spawned by PushWithHandle, from the first line
of the loop onward.  Inputs modelling the environment of one delivery call:
  - push i : the error result of the (i+1)-th inner.Push call with this ctx
    and entry (the inner client s observable behaviour during this delivery);
  - cancel n : whether the select executed with n pushes already made picks
    the ctx.Done branch (scheduler nondeterminism; it can only be true once
    the context is done, so a never-cancelled context is cancel = false);
  - fuel : an upper bound on loop iterations we are willing to unfold (the
    Go loop can run forever); none means the loop was still running.
State: b the cloned backoff, n the number of pushes made so far, err the
result of the latest push.  Go evaluates clonedBackoff.Next() when entering
the select, before either branch is chosen, hence b.Next is taken first. -/
def runLoop (push : Nat → Option GoError) (cancel : Nat → Bool) :
    Nat → ExponentialBackoff → Nat → Option GoError → Option (Outcome × Nat)
  | 0, _, _, _ => none
  | fuel + 1, b, n, err =>
    if isTransient err then
      let stepped := b.Next
      if cancel n then some (.cancelled, n)
      else
        match stepped.1 with
        | none => some (.exhausted, n)
        | some _ => runLoop push cancel fuel stepped.2 (n + 1) (push n)
    else
      some (finishOutcome err, n)

/-- The retrying client of retry.go.  The inner client.Client is modelled by
its observable behaviour during one delivery call: the sequence of results
of its Push invocations.  The backoff field holds the only Backoff
implementation of the repository, ExponentialBackoff. -/
structure RetryClient where
  inner : Nat → Option GoError
  backoff : ExponentialBackoff

/-- NewRetryClient from retry.go: wraps the given inner client with a
zero-valued ExponentialBackoff. -/
def NewRetryClient (inner : Nat → Option GoError) : RetryClient :=
  { inner := inner, backoff := ⟨0, 0, 0⟩ }

/-- Client.WithBackoff from retry.go: a new retrying client with the same
inner reference and a clone of the supplied backoff. -/
def RetryClient.WithBackoff (rc : RetryClient) (b : ExponentialBackoff) : RetryClient :=
  { inner := rc.inner, backoff := b.Clone }

/-- Client.PushWithHandle from retry.go: clone the configured backoff, make
the first push, then run the retry loop; the result is what the goroutine
did to the returned outcome channel together with the total number of push
attempts it made. -/
def RetryClient.PushWithHandle (rc : RetryClient) (cancel : Nat → Bool)
    (fuel : Nat) : Option (Outcome × Nat) :=
  runLoop rc.inner cancel fuel rc.backoff.Clone 1 (rc.inner 0)

/-- Client.Push from retry.go: it calls PushWithHandle, discards the handle
and returns nil.  The pair records the value returned to the caller (first
component, the literal nil of the source) and the behaviour of the spawned
delivery (second component). -/
def RetryClient.Push (rc : RetryClient) (cancel : Nat → Bool) (fuel : Nat) :
    Option GoError × Option (Outcome × Nat) :=
  (none, rc.PushWithHandle cancel fuel)

/-- C1 failing input: a delivery whose backoff (Max 1ms) exhausts at the
second select while the inner client keeps returning a delivery-status
error.  The loop exits via backoff exhaustion, the final (second) push
attempt returned an error, yet the goroutine returns before the send and the
close: the outcome channel is neither written nor closed, so a reader of the
channel blocks forever, contradicting the claim (and the doc comment of
PushWithHandle in retry.go, which promises the error is sent when retries
are exhausted). -/
theorem exhaustion_leaves_channel_open_eval :
    RetryClient.PushWithHandle
        ⟨fun _ => some (.pushStatus 500 "500 Internal Server Error" []), ⟨0, 0, 1000000⟩⟩
        (fun _ => false) 10 = some (.exhausted, 2) ∧
      Outcome.channelWritten .exhausted = false ∧
      Outcome.channelClosed .exhausted = false := by
  decide

/-- C2: if the first push returns an error that errors.Is does not classify
as a delivery-status error (for example an encoding or request-construction
failure), the loop is never entered: exactly one push attempt is made, that
error is sent exactly once on the outcome channel, and the channel is then
closed. -/
theorem non_transient_error_single_attempt (rc : RetryClient)
    (cancel : Nat → Bool) (fuel : Nat) (e : GoError) (hf : 1 ≤ fuel)
    (h0 : rc.inner 0 = some e) (he : errorsIsPushStatus e = false) :
    rc.PushWithHandle cancel fuel = some (.sentThenClosed e, 1) ∧
      (Outcome.sentThenClosed e).channelWritten = true ∧
      (Outcome.sentThenClosed e).channelClosed = true := by
  obtain ⟨k, rfl⟩ : ∃ k, fuel = k + 1 := ⟨fuel - 1, (Nat.succ_pred_eq_of_pos hf).symm⟩
  refine ⟨?_, rfl, rfl⟩
  simp [RetryClient.PushWithHandle, runLoop, isTransient, h0, he, finishOutcome]

/-- Witness for C2: an inner client failing with an encoding-style error. -/
theorem non_transient_error_single_attempt_witness :
    (1 ≤ 5 ∧
        (⟨fun _ => some (.other "encode failed"), ⟨0, 0, 0⟩⟩ : RetryClient).inner 0 =
          some (.other "encode failed") ∧
        errorsIsPushStatus (.other "encode failed") = false) ∧
      (RetryClient.PushWithHandle ⟨fun _ => some (.other "encode failed"), ⟨0, 0, 0⟩⟩
          (fun _ => false) 5 = some (.sentThenClosed (.other "encode failed"), 1) ∧
        (Outcome.sentThenClosed (.other "encode failed")).channelWritten = true ∧
        (Outcome.sentThenClosed (.other "encode failed")).channelClosed = true) :=
  ⟨⟨by decide, rfl, by decide⟩,
    non_transient_error_single_attempt ⟨fun _ => some (.other "encode failed"), ⟨0, 0, 0⟩⟩
      (fun _ => false) 5 (.other "encode failed") (by decide) rfl (by decide)⟩

/-- C3: inner client returns a transient delivery-status error on the first
four push attempts and succeeds on the fifth; with the default (no-ceiling)
backoff of NewRetryClient and no cancellation, PushWithHandle makes exactly
5 push attempts and closes the outcome channel without sending an error. -/
theorem four_transient_failures_then_success (inner : Nat → Option GoError)
    (cancel : Nat → Bool) (k : Nat)
    (ht0 : isTransient (inner 0) = true) (ht1 : isTransient (inner 1) = true)
    (ht2 : isTransient (inner 2) = true) (ht3 : isTransient (inner 3) = true)
    (h4 : inner 4 = none) (hc : ∀ n, cancel n = false) :
    (NewRetryClient inner).PushWithHandle cancel (k + 5) = some (.closedEmpty, 5) := by
  have hb1 : (⟨0, 0, 0⟩ : ExponentialBackoff).Next = (some 100000000, ⟨200000000, 2, 0⟩) := by
    decide
  have hb2 : (⟨200000000, 2, 0⟩ : ExponentialBackoff).Next =
      (some 200000000, ⟨400000000, 2, 0⟩) := by decide
  have hb3 : (⟨400000000, 2, 0⟩ : ExponentialBackoff).Next =
      (some 400000000, ⟨800000000, 2, 0⟩) := by decide
  have hb4 : (⟨800000000, 2, 0⟩ : ExponentialBackoff).Next =
      (some 800000000, ⟨1600000000, 2, 0⟩) := by decide
  have hnone : isTransient none = false := rfl
  simp [NewRetryClient, RetryClient.PushWithHandle, ExponentialBackoff.Clone, runLoop,
    ht0, ht1, ht2, ht3, h4, hc, hb1, hb2, hb3, hb4, hnone, finishOutcome]

/-- A concrete inner-client behaviour: a 500 delivery-status error on the
first four pushes, success afterwards. -/
def innerFail4 : Nat → Option GoError :=
  fun i => if i < 4 then some (GoError.pushStatus 500 "500" []) else none

/-- Witness for C3: the concrete inner client innerFail4. -/
theorem four_transient_failures_then_success_witness :
    (isTransient (innerFail4 0) = true ∧ isTransient (innerFail4 1) = true ∧
        isTransient (innerFail4 2) = true ∧ isTransient (innerFail4 3) = true ∧
        innerFail4 4 = none) ∧
      (NewRetryClient innerFail4).PushWithHandle (fun _ => false) (0 + 5) =
        some (.closedEmpty, 5) :=
  ⟨⟨by decide, by decide, by decide, by decide, by decide⟩,
    four_transient_failures_then_success innerFail4 (fun _ => false) 0
      (by decide) (by decide) (by decide) (by decide) (by decide) (fun _ => rfl)⟩

/-- C4: from any loop state with n push attempts already made, if the latest
error is transient (so the loop enters the select) and the ctx.Done branch
wins the select, the goroutine returns at once: the total attempt count stays
n (no push after cancellation) and the outcome channel is neither written
nor closed on this path. -/
theorem cancellation_during_wait_abandons (push : Nat → Option GoError)
    (cancel : Nat → Bool) (b : ExponentialBackoff) (fuel n : Nat)
    (err : Option GoError) (ht : isTransient err = true) (hc : cancel n = true) :
    runLoop push cancel (fuel + 1) b n err = some (.cancelled, n) ∧
      Outcome.channelWritten .cancelled = false ∧
      Outcome.channelClosed .cancelled = false := by
  refine ⟨?_, rfl, rfl⟩
  simp [runLoop, ht, hc]

/-- Witness for C4: cancellation firing at the first wait of a delivery
whose first push failed with a 500 status. -/
theorem cancellation_during_wait_abandons_witness :
    (isTransient (some (.pushStatus 500 "500" [])) = true ∧ (fun (_ : Nat) => true) 1 = true) ∧
      (runLoop (fun _ => some (.pushStatus 500 "500" [])) (fun _ => true) (3 + 1) ⟨0, 0, 0⟩ 1
          (some (.pushStatus 500 "500" [])) = some (.cancelled, 1) ∧
        Outcome.channelWritten .cancelled = false ∧
        Outcome.channelClosed .cancelled = false) :=
  ⟨⟨by decide, rfl⟩,
    cancellation_during_wait_abandons (fun _ => some (.pushStatus 500 "500" []))
      (fun _ => true) ⟨0, 0, 0⟩ 3 1 (some (.pushStatus 500 "500" [])) (by decide) rfl⟩

/-- C5: the fire-and-forget Push returns nil to its caller immediately, for
every inner-client behaviour, every cancellation schedule and every number
of loop iterations the spawned delivery may run: no error from the delivery
attempt sequence is surfaced on the synchronous return. -/
theorem push_fire_and_forget_returns_nil (rc : RetryClient) (cancel : Nat → Bool)
    (fuel : Nat) : (rc.Push cancel fuel).1 = none := rfl

/-- Go mutation experiment for WithBackoff: after the call the caller keeps
advancing the supplied backoff object k times; WithBackoff stored a fresh
clone, so the new client and the original client are unaffected.  The triple
is (original client, new client, supplied backoff after the k calls). -/
def withBackoffThenAdvanceSupplied (rc : RetryClient) (b : ExponentialBackoff)
    (k : Nat) : RetryClient × RetryClient × ExponentialBackoff :=
  (rc, rc.WithBackoff b, b.advance k)

/-- C9: WithBackoff yields a new retrying client whose inner field is the
same inner client and whose backoff field is a clone of the supplied
strategy, not a reference to it: even after the supplied object is advanced
k more times, the new client still holds the value the strategy had at call
time, and the original client keeps its own inner and backoff fields. -/
theorem withBackoff_clones_strategy_and_keeps_inner (rc : RetryClient)
    (b : ExponentialBackoff) (k : Nat) :
    ((rc.WithBackoff b).inner = rc.inner ∧ (rc.WithBackoff b).backoff = b.Clone) ∧
      ((withBackoffThenAdvanceSupplied rc b k).2.1.backoff = b ∧
        (withBackoffThenAdvanceSupplied rc b k).1.inner = rc.inner ∧
        (withBackoffThenAdvanceSupplied rc b k).1.backoff = rc.backoff) :=
  ⟨⟨rfl, rfl⟩, rfl, rfl, rfl⟩

/-- push.LabelAdapter from the Loki push protobuf: a name/value pair. -/
structure LabelAdapter where
  Name : String
  Value : String
deriving DecidableEq, Repr

/-- push.Entry from the Loki push protobuf: timestamp (time.Time, modelled
as nanoseconds since the epoch), line and structured metadata. -/
structure PushEntry where
  Timestamp : Int
  Line : String
  StructuredMetadata : List LabelAdapter
deriving DecidableEq, Repr

/-- push.Stream from the Loki push protobuf (named PushStream here since Lean core already has a Stream). -/
structure PushStream where
  Labels : String
  Entries : List PushEntry
deriving DecidableEq, Repr

/-- push.PushRequest from the Loki push protobuf. -/
structure PushRequest where
  Streams : List PushStream
deriving DecidableEq, Repr

/-- client.Labeler is an interface whose only observable use in entry.go is
its Label method; an interface value is therefore modelled by the label
string it returns. -/
structure Labeler where
  Label : String
deriving DecidableEq, Repr

/-- client.Entry from entry.go.  Labels is an interface field and can be the
nil interface value, hence Option; StructuredMetadata is a Go map modelled
as an association list in iteration order. -/
structure Entry where
  Timestamp : Int
  Labels : Option Labeler
  Line : String
  StructuredMetadata : List (String × String)

/-- metadataToLabelsAdapter from entry.go: nil for an empty map, otherwise
one LabelAdapter per key/value pair in iteration order. -/
def metadataToLabelsAdapter (metadata : List (String × String)) : List LabelAdapter :=
  if metadata.length = 0 then []
  else metadata.map fun kv => { Name := kv.1, Value := kv.2 }

/-- Entry.AsPushRequest from entry.go: the labels string is the literal
open-brace close-brace when the Labeler is nil (guard added in the source to
avoid a nil pointer dereference), otherwise the Label result; the request
holds a single stream with a single entry. -/
def Entry.AsPushRequest (entry : Entry) : PushRequest :=
  let labels := match entry.Labels with
    | none => "\x7b\x7d"
    | some labeler => labeler.Label
  { Streams := [{ Labels := labels,
                  Entries := [{ Timestamp := entry.Timestamp, Line := entry.Line,
                                StructuredMetadata :=
                                  metadataToLabelsAdapter entry.StructuredMetadata }] }] }

/-- Entry.Encode from entry.go: build the push request, marshal it to
protobuf, then compress with Snappy.  proto.Marshal and snappy.Encode are
external libraries, passed in as parameters; none models a marshal error. -/
def Entry.Encode (protoMarshal : PushRequest → Option (List UInt8))
    (snappyEncode : List UInt8 → List UInt8) (entry : Entry) : Option (List UInt8) :=
  match protoMarshal entry.AsPushRequest with
  | none => none
  | some buf => some (snappyEncode buf)

/-- C10: for an Entry whose Labels field is nil, AsPushRequest takes the
guarded branch (no dereference of the nil Labeler, no failure) and produces
exactly one stream whose label string is the two-character literal
open-brace close-brace; Encode feeds exactly that request to the marshaller
and fails only if the external marshaller does. -/
theorem nil_labeler_as_push_request (entry : Entry) (h : entry.Labels = none) :
    (entry.AsPushRequest =
        { Streams := [{ Labels := "\x7b\x7d",
                        Entries := [{ Timestamp := entry.Timestamp, Line := entry.Line,
                                      StructuredMetadata :=
                                        metadataToLabelsAdapter entry.StructuredMetadata }] }] } ∧
      entry.AsPushRequest.Streams.length = 1 ∧
      ∀ s ∈ entry.AsPushRequest.Streams, s.Labels = "\x7b\x7d") ∧
    ∀ (protoMarshal : PushRequest → Option (List UInt8))
      (snappyEncode : List UInt8 → List UInt8),
      Entry.Encode protoMarshal snappyEncode entry =
        (protoMarshal entry.AsPushRequest).map snappyEncode := by
  constructor
  · refine ⟨?_, ?_⟩
    · simp [Entry.AsPushRequest, h]
    · constructor
      · simp [Entry.AsPushRequest, h]
      · intro s hs
        simp [Entry.AsPushRequest, h] at hs
        simp [hs]
  · intro protoMarshal snappyEncode
    unfold Entry.Encode
    cases protoMarshal entry.AsPushRequest <;> rfl

/-- Witness for C10: a concrete entry with a nil Labeler. -/
theorem nil_labeler_as_push_request_witness :
    (⟨0, none, "hello", [("k", "v")]⟩ : Entry).Labels = none ∧
      (((⟨0, none, "hello", [("k", "v")]⟩ : Entry).AsPushRequest =
            { Streams := [{ Labels := "\x7b\x7d",
                            Entries := [{ Timestamp := (0 : Int), Line := "hello",
                                          StructuredMetadata :=
                                            metadataToLabelsAdapter [("k", "v")] }] }] } ∧
          ((⟨0, none, "hello", [("k", "v")]⟩ : Entry).AsPushRequest).Streams.length = 1 ∧
          ∀ s ∈ ((⟨0, none, "hello", [("k", "v")]⟩ : Entry).AsPushRequest).Streams,
            s.Labels = "\x7b\x7d") ∧
        ∀ (protoMarshal : PushRequest → Option (List UInt8))
          (snappyEncode : List UInt8 → List UInt8),
          Entry.Encode protoMarshal snappyEncode ⟨0, none, "hello", [("k", "v")]⟩ =
            (protoMarshal (⟨0, none, "hello", [("k", "v")]⟩ : Entry).AsPushRequest).map
              snappyEncode) :=
  ⟨rfl, nil_labeler_as_push_request ⟨0, none, "hello", [("k", "v")]⟩ rfl⟩
